import Mathlib

/-!
Shallow embedding of the CoreGraphics software-framebuffer surface
(`src/cg.rs`): the `CGImpl` state (layer, retained window, color space,
optional pixel buffer, width, height) and its operations `new`, `resize`,
`buffer_mut`, `present` and `Drop`.  Machine integers are modelled as `Nat`
with an explicit `% 2 ^ 32` where the source does 32-bit arithmetic
(`self.width * 4` in `present`); `usize` is 64-bit on the target platform and
never overflows for `u32` operands, so `width * height` is plain `Nat`
multiplication.  Calls into the platform (data provider, image construction,
transactions, layer mutation, retain/release of the window) are recorded as an
event trace and as explicit layer state.
-/

namespace Softbuffer

/-- Modelled from the spec: the crate-level error type `SoftBufferError` is
declared outside `src/`; the spec names an `InitializationError` failure mode
for construction.  None of the operations in `src/cg.rs` ever construct an
error value. -/
inductive SoftBufferError where
  | InitializationError
deriving DecidableEq, Repr

/-- The device RGB color space created once by `CGColorSpace::create_device_rgb`. -/
inductive ColorSpace where
  | deviceRGB
deriving DecidableEq, Repr

/-- `kCGRenderingIntentDefault`. -/
inductive RenderingIntent where
  | defaultIntent
deriving DecidableEq, Repr

/-- `kCGBitmapByteOrder32Little`. -/
inductive ByteOrder32 where
  | little
deriving DecidableEq, Repr

/-- `kCGImageAlphaNoneSkipFirst`. -/
inductive AlphaInfo where
  | noneSkipFirst
deriving DecidableEq, Repr

/-- The bitmap-info word passed to `CGImage::new`, the bitwise or of a byte
order and an alpha layout. -/
structure BitmapInfo where
  byteOrder : ByteOrder32
  alphaInfo : AlphaInfo
deriving DecidableEq, Repr

/-- An immutable `CGImage` as constructed by `CGImage::new` in `present`:
all the arguments the source passes. The pixel data held through the data
provider is recorded as the list of 32-bit pixel values. -/
structure CGImage where
  width : Nat
  height : Nat
  bitsPerComponent : Nat
  bitsPerPixel : Nat
  bytesPerRow : Nat
  colorSpace : ColorSpace
  bitmapInfo : BitmapInfo
  data : List Nat
  shouldInterpolate : Bool
  intent : RenderingIntent
deriving DecidableEq, Repr

/-- `ContentsGravity::TopLeft`. -/
inductive ContentsGravity where
  | topLeft
deriving DecidableEq, Repr

/-- Observable state of the `CALayer` owned by the surface: the properties
the source sets at construction (`set_contents_gravity`,
`set_needs_display_on_bounds_change`) and during `present`
(`set_contents_scale`, `set_contents`). The backing scale factor is a
`CGFloat`; its value is opaque to this code, modelled as a `Nat` code. -/
structure LayerState where
  contentsGravity : ContentsGravity
  needsDisplayOnBoundsChange : Bool
  contents : Option CGImage
  contentsScale : Option Nat
deriving DecidableEq, Repr

/-- `raw_window_handle::AppKitWindowHandle`: two raw pointers, modelled as
addresses; address `0` is the null pointer. -/
structure AppKitWindowHandle where
  ns_window : Nat
  ns_view : Nat
deriving DecidableEq, Repr

/-- The surface state `CGImpl` from `src/cg.rs`. -/
structure CGImpl where
  layer : LayerState
  window : Nat
  colorSpace : ColorSpace
  buffer : Option (List Nat)
  width : Nat
  height : Nat
deriving DecidableEq, Repr

/-- Externally visible platform calls made by the operations, in order. -/
inductive Event where
  | retainWindow
  | releaseWindow
  | createDataProvider (data : List Nat)
  | createImage (img : CGImage)
  | transactionBegin
  | setDisableActions (b : Bool)
  | setContentsScale (scale : Nat)
  | setContents (img : CGImage)
  | transactionCommit
deriving DecidableEq, Repr

/-- `2 ^ 32`, the modulus of `u32` arithmetic. -/
def u32Size : Nat := 2 ^ 32

/-- The state `CGImpl::new` returns: layer configured with top-left gravity
and no redraw on bounds change, no contents and no scale assigned yet, the
device RGB color space, no buffer, and dimensions `0 × 0`. -/
def CGImpl.newState (handle : AppKitWindowHandle) : CGImpl :=
  { layer := { contentsGravity := ContentsGravity.topLeft
               needsDisplayOnBoundsChange := false
               contents := none
               contentsScale := none }
    window := handle.ns_window
    colorSpace := ColorSpace.deviceRGB
    buffer := none
    width := 0
    height := 0 }

/-- `CGImpl::new`: retains the window (`msg_send![window, retain]`), builds
the subview and layer, and returns `Ok` unconditionally — the source has no
error path. -/
def CGImpl.new (handle : AppKitWindowHandle) :
    Except SoftBufferError (CGImpl × List Event) :=
  Except.ok (CGImpl.newState handle, [Event.retainWindow])

/-- `CGImpl::resize`: records the new dimensions and returns `Ok(())`. -/
def CGImpl.resize (s : CGImpl) (width height : Nat) :
    CGImpl × Except SoftBufferError Unit :=
  ({ s with width := width, height := height }, Except.ok ())

/-- `Vec::resize(new_len, value)`: truncate when shrinking, append copies of
`value` when growing. -/
def vecResize (v : List Nat) (newLen : Nat) (value : Nat) : List Nat :=
  if newLen ≤ v.length then v.take newLen
  else v ++ List.replicate (newLen - v.length) value

/-- `CGImpl::buffer_mut`: allocate `Vec::new()` if absent, then
`buffer.resize(width as usize * height as usize, 0)` and return the slice. -/
def CGImpl.buffer_mut (s : CGImpl) :
    CGImpl × Except SoftBufferError (List Nat) :=
  let buf0 := s.buffer.getD []
  let buf := vecResize buf0 (s.width * s.height) 0
  ({ s with buffer := some buf }, Except.ok buf)

/-- The stride argument of `CGImage::new`: `(self.width * 4) as usize`, the
multiplication performed in `u32` so it wraps modulo `2 ^ 32` before the
widening cast. -/
def strideU32 (width : Nat) : Nat := width * 4 % u32Size

/-- The image `present` constructs from the taken buffer and the current
state: `width × height`, 8 bits per component, 32 bits per pixel, the 32-bit
stride, the stored device color space,
`kCGBitmapByteOrder32Little | kCGImageAlphaNoneSkipFirst`, no interpolation,
default rendering intent. -/
def presentImage (s : CGImpl) (buf : List Nat) : CGImage :=
  { width := s.width
    height := s.height
    bitsPerComponent := 8
    bitsPerPixel := 32
    bytesPerRow := strideU32 s.width
    colorSpace := s.colorSpace
    bitmapInfo := { byteOrder := ByteOrder32.little
                    alphaInfo := AlphaInfo.noneSkipFirst }
    data := buf
    shouldInterpolate := false
    intent := RenderingIntent.defaultIntent }

/-- `CGImpl::present`: if `self.buffer.take()` yields nothing, return
`Ok(())` with no effect; otherwise wrap the buffer in a data provider, build
the image, and inside a begin/commit transaction with actions disabled set
the layer's contents scale to the window's current backing scale factor
(passed in fresh at each call) and the image as the layer's contents.
Returns the new state, the platform calls in order, and the result. -/
def CGImpl.present (s : CGImpl) (backingScaleFactor : Nat) :
    CGImpl × List Event × Except SoftBufferError Unit :=
  match s.buffer with
  | none => (s, [], Except.ok ())
  | some buf =>
    let img := presentImage s buf
    let s1 : CGImpl :=
      { s with buffer := none
               layer := { s.layer with
                          contentsScale := some backingScaleFactor
                          contents := some img } }
    (s1,
     [Event.createDataProvider buf, Event.createImage img,
      Event.transactionBegin, Event.setDisableActions true,
      Event.setContentsScale backingScaleFactor, Event.setContents img,
      Event.transactionCommit],
     Except.ok ())

/-- `Drop for CGImpl`: a single `msg_send![self.window, release]`. -/
def CGImpl.dropEvents (_s : CGImpl) : List Event := [Event.releaseWindow]

/-- The operations a caller can perform between construction and drop; a
`present` carries the backing scale factor the window reports at that call. -/
inductive Op where
  | resize (width height : Nat)
  | bufferMut
  | present (scale : Nat)
deriving DecidableEq, Repr

/-- Apply one operation, keeping the state and the emitted platform calls. -/
def applyOp (s : CGImpl) : Op → CGImpl × List Event
  | Op.resize w h => ((s.resize w h).1, [])
  | Op.bufferMut => ((s.buffer_mut).1, [])
  | Op.present scale =>
    let r := s.present scale
    (r.1, r.2.1)

/-- Run a sequence of operations, collecting all platform calls in order. -/
def runOps (s : CGImpl) : List Op → CGImpl × List Event
  | [] => (s, [])
  | op :: ops =>
    let r := applyOp s op
    let r2 := runOps r.1 ops
    (r2.1, r.2 ++ r2.2)

/-- The dimensions set by the last `resize` of the sequence, starting from
the given current dimensions. -/
def lastDimsFrom (d : Nat × Nat) : List Op → Nat × Nat
  | [] => d
  | Op.resize w h :: ops => lastDimsFrom (w, h) ops
  | Op.bufferMut :: ops => lastDimsFrom d ops
  | Op.present _ :: ops => lastDimsFrom d ops

/-- The dimensions set by the last `resize`, or `0 × 0` at construction. -/
def lastDims (ops : List Op) : Nat × Nat := lastDimsFrom (0, 0) ops

/-- All platform calls over a full lifetime: construction, an arbitrary
operation sequence, then drop. -/
def lifetimeEvents (handle : AppKitWindowHandle) (ops : List Op) :
    List Event :=
  match CGImpl.new handle with
  | Except.ok (s0, evs) =>
    let r := runOps s0 ops
    evs ++ r.2 ++ CGImpl.dropEvents r.1
  | Except.error _ => []

/-- The state invariant of the spec, decidably: whenever the buffer is
`Some`, its length equals `width * height`. -/
def CGImpl.bufferInv (s : CGImpl) : Bool :=
  match s.buffer with
  | none => true
  | some b => b.length == s.width * s.height

/-- Length of the slice of a successful `buffer_mut` result. -/
def okLength (r : Except SoftBufferError (List Nat)) : Option Nat :=
  r.toOption.map List.length

/-- Handle used for concrete test states. -/
def testHandle : AppKitWindowHandle := { ns_window := 1, ns_view := 2 }

/-- The all-null window handle. -/
def nullHandle : AppKitWindowHandle := { ns_window := 0, ns_view := 0 }

/-- State reached by `new`, `resize 1 1`, `buffer_mut`. -/
def writtenState : CGImpl :=
  ((((CGImpl.newState testHandle).resize 1 1).1).buffer_mut).1

/-- State reached by `new`, `resize 1 1`, `buffer_mut`, `resize 2 2`. -/
def resizeBreakState : CGImpl := ((writtenState.resize 2 2).1)

/-- State reached by `new`, `resize (2 ^ 31) 0`, `buffer_mut`: a width too
large for the 32-bit stride computation, with an (empty) buffer present. -/
def wideState : CGImpl :=
  ((((CGImpl.newState testHandle).resize 2147483648 0).1).buffer_mut).1

theorem vecResize_length (v : List Nat) (n x : Nat) :
    (vecResize v n x).length = n := by
  unfold vecResize
  split
  · simp [List.length_take]; omega
  · simp [List.length_append, List.length_replicate]; omega

theorem vecResize_take (v : List Nat) (n x : Nat) :
    (vecResize v n x).take (min v.length n) = v.take (min v.length n) := by
  unfold vecResize
  split
  · rename_i hle
    rw [Nat.min_eq_right hle]
    rw [List.take_take, Nat.min_self]
  · rename_i hgt
    have hle : v.length ≤ n := by omega
    rw [Nat.min_eq_left hle]
    rw [List.take_append_of_le_length (Nat.le_refl _)]

theorem vecResize_nil (n : Nat) : vecResize [] n 0 = List.replicate n 0 := by
  unfold vecResize
  split
  · rename_i hle
    simp at hle
    simp [hle]
  · simp

theorem vecResize_drop (v : List Nat) (n x : Nat) (hle : v.length ≤ n) :
    (vecResize v n x).drop v.length = List.replicate (n - v.length) x := by
  unfold vecResize
  split
  · rename_i h
    have hv : n = v.length := Nat.le_antisymm h hle
    simp [hv]
  · rw [List.drop_append_of_le_length (Nat.le_refl _)]
    simp

theorem runOps_dims (ops : List Op) : ∀ s : CGImpl,
    ((runOps s ops).1.width, (runOps s ops).1.height) =
      lastDimsFrom (s.width, s.height) ops := by
  induction ops with
  | nil => intro s; rfl
  | cons op ops ih =>
    intro s
    cases op with
    | resize w h => simpa [runOps, applyOp, CGImpl.resize, lastDimsFrom] using ih _
    | bufferMut => simpa [runOps, applyOp, CGImpl.buffer_mut, lastDimsFrom] using ih _
    | present scale =>
      cases hb : s.buffer with
      | none =>
        simpa [runOps, applyOp, CGImpl.present, hb, lastDimsFrom] using ih s
      | some b =>
        simpa [runOps, applyOp, CGImpl.present, hb, lastDimsFrom] using ih _

theorem runOps_colorSpace (ops : List Op) : ∀ s : CGImpl,
    (runOps s ops).1.colorSpace = s.colorSpace := by
  induction ops with
  | nil => intro s; rfl
  | cons op ops ih =>
    intro s
    cases op with
    | resize w h => simp [runOps, applyOp, CGImpl.resize, ih]
    | bufferMut => simp [runOps, applyOp, CGImpl.buffer_mut, ih]
    | present scale =>
      cases hb : s.buffer with
      | none => simp [runOps, applyOp, CGImpl.present, hb, ih]
      | some b => simp [runOps, applyOp, CGImpl.present, hb, ih]

theorem applyOp_no_window_events (s : CGImpl) (op : Op) :
    (applyOp s op).2.count Event.retainWindow = 0 ∧
      (applyOp s op).2.count Event.releaseWindow = 0 := by
  cases op with
  | resize w h => simp [applyOp]
  | bufferMut => simp [applyOp]
  | present scale =>
    cases hb : s.buffer with
    | none => simp [applyOp, CGImpl.present, hb]
    | some b => simp [applyOp, CGImpl.present, hb, List.count_cons]

theorem runOps_no_window_events (ops : List Op) : ∀ s : CGImpl,
    (runOps s ops).2.count Event.retainWindow = 0 ∧
      (runOps s ops).2.count Event.releaseWindow = 0 := by
  induction ops with
  | nil => intro s; simp [runOps]
  | cons op ops ih =>
    intro s
    have h1 := applyOp_no_window_events s op
    have h2 := ih (applyOp s op).1
    simp [runOps, List.count_append, h1.1, h1.2, h2.1, h2.2]

/-- C1. After any operation sequence from construction, the current
dimensions are those of the last `resize` (or `0 × 0`); `buffer_mut` on any
state returns `Ok` with a slice of length exactly `width * height`; after
`resize 0 0` the slice is empty; and two `buffer_mut` calls with no
intervening `resize` return slices of the same length. -/
theorem C1_buffer_mut_sizing (h : AppKitWindowHandle) (ops : List Op)
    (s : CGImpl) :
    ((runOps (CGImpl.newState h) ops).1.width = (lastDims ops).1 ∧
      (runOps (CGImpl.newState h) ops).1.height = (lastDims ops).2) ∧
    okLength (s.buffer_mut).2 = some (s.width * s.height) ∧
    (((s.resize 0 0).1.buffer_mut).2 = Except.ok []) ∧
    okLength ((s.buffer_mut).1.buffer_mut).2 = okLength (s.buffer_mut).2 := by
  refine ⟨?_, ?_, ?_, ?_⟩
  · have hd := runOps_dims ops (CGImpl.newState h)
    exact ⟨congrArg Prod.fst hd, congrArg Prod.snd hd⟩
  · simp [CGImpl.buffer_mut, okLength, Except.toOption, vecResize_length]
  · simp [CGImpl.resize, CGImpl.buffer_mut, vecResize]
  · simp [CGImpl.buffer_mut, okLength, Except.toOption, vecResize_length]

/-- C4. `present` on a state with no buffer returns `Ok(())`, makes no
platform calls (no image, no transaction, no layer assignment) and leaves
the whole state, layer included, unchanged. -/
theorem C4_present_noop (s : CGImpl) (scale : Nat) (hb : s.buffer = none) :
    s.present scale = (s, [], Except.ok ()) := by
  unfold CGImpl.present
  rw [hb]

/-- Witness for C4 at a concrete freshly constructed state. -/
theorem C4_present_noop_witness :
    (CGImpl.newState testHandle).buffer = none ∧
      (CGImpl.newState testHandle).present 3 =
        (CGImpl.newState testHandle, [], Except.ok ()) :=
  ⟨rfl, C4_present_noop (CGImpl.newState testHandle) 3 rfl⟩

/-- C5 counterexample. Constructing with the null window handle does not
return an error: `new` succeeds, contradicting the claim that `new` returns
`InitializationError` for every handle whose window reference is null. -/
theorem C5_counterexample : (CGImpl.new nullHandle).isOk = true := by decide

/-- C5 amended. `new` performs no validation of the platform window
reference and returns `Ok` for every handle, null window included. -/
theorem C5_new_always_ok (h : AppKitWindowHandle) :
    CGImpl.new h = Except.ok (CGImpl.newState h, [Event.retainWindow]) := rfl

/-- C6. `resize` always returns `Ok(())`, updates exactly the `width` and
`height` fields, and leaves the buffer (presence and contents), the layer,
the window and the color space unchanged — no reallocation happens. -/
theorem C6_resize_metadata_only (s : CGImpl) (w h : Nat) :
    (s.resize w h).2 = Except.ok () ∧
    (s.resize w h).1.width = w ∧
    (s.resize w h).1.height = h ∧
    (s.resize w h).1.buffer = s.buffer ∧
    (s.resize w h).1.layer = s.layer ∧
    (s.resize w h).1.window = s.window ∧
    (s.resize w h).1.colorSpace = s.colorSpace := by
  refine ⟨rfl, rfl, rfl, rfl, rfl, rfl, rfl⟩

/-- C2 counterexample. The invariant is not preserved by `resize`: after
`new`, `resize 1 1`, `buffer_mut`, `resize 2 2` the buffer is `some [0]`, of
length `1`, while `width * height = 4`, so the stated invariant fails. -/
theorem C2_counterexample :
    resizeBreakState.buffer = some [0] ∧
      resizeBreakState.width * resizeBreakState.height = 4 ∧
      resizeBreakState.bufferInv = false := by decide

/-- C2 amended. The invariant "buffer `Some` implies its length equals
`width * height`" holds after construction, is re-established by every
`buffer_mut` and is preserved by every `present`, but a `resize` may break
it until the next `buffer_mut`; since `buffer_mut` resizes before returning,
every slice a caller receives still has length `width * height`. -/
theorem C2_invariant_amended (h : AppKitWindowHandle) (s : CGImpl)
    (scale : Nat) (hs : s.bufferInv = true) :
    (CGImpl.newState h).bufferInv = true ∧
    ((s.buffer_mut).1).bufferInv = true ∧
    ((s.present scale).1).bufferInv = true ∧
    okLength (s.buffer_mut).2 = some (s.width * s.height) := by
  refine ⟨rfl, ?_, ?_, ?_⟩
  · simp [CGImpl.buffer_mut, CGImpl.bufferInv, vecResize_length]
  · cases hb : s.buffer with
    | none =>
      unfold CGImpl.present
      rw [hb]
      exact hs
    | some b =>
      unfold CGImpl.present
      rw [hb]
      rfl
  · simp [CGImpl.buffer_mut, okLength, Except.toOption, vecResize_length]

/-- Witness for C2 amended at a concrete state with a buffer. -/
theorem C2_invariant_amended_witness :
    ((((CGImpl.newState testHandle).resize 1 1).1.buffer_mut).1.bufferInv
        = true) ∧
      ((CGImpl.newState testHandle).bufferInv = true ∧
        (((((CGImpl.newState testHandle).resize 1 1).1.buffer_mut).1.buffer_mut).1.bufferInv = true) ∧
        ((((((CGImpl.newState testHandle).resize 1 1).1.buffer_mut).1).present 2).1.bufferInv = true) ∧
        okLength (((((CGImpl.newState testHandle).resize 1 1).1.buffer_mut).1).buffer_mut).2 =
          some ((((CGImpl.newState testHandle).resize 1 1).1.buffer_mut).1.width *
            (((CGImpl.newState testHandle).resize 1 1).1.buffer_mut).1.height)) :=
  ⟨by decide,
    C2_invariant_amended testHandle
      (((CGImpl.newState testHandle).resize 1 1).1.buffer_mut).1 2 (by decide)⟩

/-- C3. A `present` that finds a buffer moves it out: the buffer field
becomes `none`, and the next `buffer_mut` allocates fresh storage, returning
a slice that is entirely zero (`replicate (width * height) 0`). -/
theorem C3_present_consumes_buffer (s : CGImpl) (scale : Nat) (b : List Nat)
    (hb : s.buffer = some b) :
    ((s.present scale).1.buffer = none) ∧
    (((s.present scale).1.buffer_mut).2 =
      Except.ok (List.replicate
        ((s.present scale).1.width * (s.present scale).1.height) 0)) ∧
    (∀ x ∈ List.replicate
        ((s.present scale).1.width * (s.present scale).1.height) 0, x = 0) := by
  have h1 : (s.present scale).1.buffer = none := by
    unfold CGImpl.present
    rw [hb]
  refine ⟨h1, ?_, ?_⟩
  · simp [CGImpl.buffer_mut, h1, vecResize_nil]
  · intro x hx
    exact List.eq_of_mem_replicate hx

/-- Witness for C3 at a concrete written state. -/
theorem C3_present_consumes_buffer_witness :
    (writtenState.buffer = some [0]) ∧
      (((writtenState.present 2).1.buffer = none) ∧
        (((writtenState.present 2).1.buffer_mut).2 =
          Except.ok (List.replicate
            ((writtenState.present 2).1.width *
              (writtenState.present 2).1.height) 0)) ∧
        (∀ x ∈ List.replicate
            ((writtenState.present 2).1.width *
              (writtenState.present 2).1.height) 0, x = 0)) :=
  ⟨by decide, C3_present_consumes_buffer writtenState 2 [0] (by decide)⟩

/-- C7. When `present` finds a buffer it performs, in order: data-provider
wrapping of the buffer, image construction, transaction begin, disabling of
implicit actions, assignment of the contents scale to the backing scale
factor passed in at this call, assignment of the image as contents, and a
single transaction commit; the image carries `width × height`, 8 bits per
component, 32 bits per pixel, the `width * 4` stride (32-bit arithmetic),
the little-endian/alpha-skip-first bitmap info, the stored color space —
device RGB in every state reachable from construction — and the default
rendering intent. -/
theorem C7_present_pipeline (s : CGImpl) (scale : Nat) (b : List Nat)
    (hb : s.buffer = some b) :
    (s.present scale).2.1 =
      [Event.createDataProvider b, Event.createImage (presentImage s b),
       Event.transactionBegin, Event.setDisableActions true,
       Event.setContentsScale scale, Event.setContents (presentImage s b),
       Event.transactionCommit] ∧
    (presentImage s b).width = s.width ∧
    (presentImage s b).height = s.height ∧
    (presentImage s b).bitsPerComponent = 8 ∧
    (presentImage s b).bitsPerPixel = 32 ∧
    (presentImage s b).bytesPerRow = s.width * 4 % 2 ^ 32 ∧
    (presentImage s b).bitmapInfo =
      { byteOrder := ByteOrder32.little,
        alphaInfo := AlphaInfo.noneSkipFirst } ∧
    (presentImage s b).colorSpace = s.colorSpace ∧
    (presentImage s b).intent = RenderingIntent.defaultIntent ∧
    (presentImage s b).data = b ∧
    (s.present scale).1.layer.contentsScale = some scale ∧
    (s.present scale).1.layer.contents = some (presentImage s b) ∧
    ((s.present scale).2.1.count Event.transactionBegin = 1) ∧
    ((s.present scale).2.1.count Event.transactionCommit = 1) ∧
    (s.present scale).2.2 = Except.ok () ∧
    (∀ h₀ ops,
      (runOps (CGImpl.newState h₀) ops).1.colorSpace =
        ColorSpace.deviceRGB) := by
  have hp : s.present scale =
      ({ s with buffer := none
                layer := { s.layer with
                           contentsScale := some scale
                           contents := some (presentImage s b) } },
       [Event.createDataProvider b, Event.createImage (presentImage s b),
        Event.transactionBegin, Event.setDisableActions true,
        Event.setContentsScale scale, Event.setContents (presentImage s b),
        Event.transactionCommit],
       Except.ok ()) := by
    unfold CGImpl.present
    rw [hb]
  refine ⟨by rw [hp], rfl, rfl, rfl, rfl, rfl, rfl, rfl, rfl, rfl,
    by rw [hp], by rw [hp], ?_, ?_, by rw [hp], ?_⟩
  · rw [hp]
    simp [List.count_cons]
  · rw [hp]
    simp [List.count_cons]
  · intro h₀ ops
    exact runOps_colorSpace ops (CGImpl.newState h₀)

/-- Witness for C7 at a concrete written state. -/
theorem C7_present_pipeline_witness :
    (writtenState.buffer = some [0]) ∧
      ((writtenState.present 2).2.1 =
        [Event.createDataProvider [0],
         Event.createImage (presentImage writtenState [0]),
         Event.transactionBegin, Event.setDisableActions true,
         Event.setContentsScale 2,
         Event.setContents (presentImage writtenState [0]),
         Event.transactionCommit]) :=
  ⟨by decide, (C7_present_pipeline writtenState 2 [0] (by decide)).1⟩

/-- C8. A `resize` with a buffer present is lossless for the surviving
part: the next `buffer_mut` returns a slice of length `w * h` whose first
`min n (w * h)` elements (with `n` the previous length) equal the previous
contents, and whose new slots, when growing, are zero-filled. -/
theorem C8_resize_lossless (s : CGImpl) (b : List Nat) (w h : Nat)
    (hb : s.buffer = some b) :
    ∃ l, (((s.resize w h).1).buffer_mut).2 = Except.ok l ∧
      l.length = w * h ∧
      l.take (min b.length (w * h)) = b.take (min b.length (w * h)) ∧
      (b.length ≤ w * h →
        l.drop b.length = List.replicate (w * h - b.length) 0) := by
  refine ⟨vecResize b (w * h) 0, ?_, ?_, ?_, ?_⟩
  · simp [CGImpl.resize, CGImpl.buffer_mut, hb]
  · exact vecResize_length b (w * h) 0
  · exact vecResize_take b (w * h) 0
  · intro hle
    exact vecResize_drop b (w * h) 0 hle

/-- Witness for C8: shrink from `some [0]` with `resize 2 2`. -/
theorem C8_resize_lossless_witness :
    (writtenState.buffer = some [0]) ∧
      (∃ l, (((writtenState.resize 2 2).1).buffer_mut).2 = Except.ok l ∧
        l.length = 2 * 2 ∧
        l.take (min (List.length [0]) (2 * 2)) =
          List.take (min (List.length [0]) (2 * 2)) [0] ∧
        (List.length [0] ≤ 2 * 2 →
          l.drop (List.length [0]) =
            List.replicate (2 * 2 - List.length [0]) 0)) :=
  ⟨by decide, C8_resize_lossless writtenState [0] 2 2 (by decide)⟩

/-- C9. Over a full lifetime — construction, an arbitrary sequence of
`resize`, `buffer_mut` and `present` calls, then drop — the native window
is retained exactly once and released exactly once, so its reference count
returns to its pre-construction value with no double release and no leak. -/
theorem C9_window_retain_release (h : AppKitWindowHandle) (ops : List Op) :
    (lifetimeEvents h ops).count Event.retainWindow = 1 ∧
      (lifetimeEvents h ops).count Event.releaseWindow = 1 := by
  have hr := runOps_no_window_events ops (CGImpl.newState h)
  unfold lifetimeEvents CGImpl.new
  simp [List.count_append, CGImpl.dropEvents, hr.1, hr.2, List.count_cons]

/-- C10. The stride submitted by `present` is computed as `width * 4` in
32-bit arithmetic before the widening cast: it equals `4 * width` only when
`width ≤ 2 ^ 30`, and for `width > 2 ^ 30` it wraps modulo `2 ^ 32` and
disagrees with the buffer's actual row size of `4 * width` bytes; by
contrast `buffer_mut` computes the element count `width * height` in
`usize` arithmetic, exactly. -/
theorem C10_stride_u32 (s : CGImpl) (scale : Nat) (b : List Nat)
    (hb : s.buffer = some b) (hw : s.width < 2 ^ 32) :
    ((s.present scale).1.layer.contents = some (presentImage s b)) ∧
    (presentImage s b).bytesPerRow = s.width * 4 % 2 ^ 32 ∧
    ((presentImage s b).bytesPerRow = 4 * s.width → s.width ≤ 2 ^ 30) ∧
    (2 ^ 30 < s.width →
      (presentImage s b).bytesPerRow ≠ 4 * s.width ∧
      (presentImage s b).bytesPerRow = 4 * s.width % 2 ^ 32) ∧
    okLength (s.buffer_mut).2 = some (s.width * s.height) := by
  have hbr : (presentImage s b).bytesPerRow = s.width * 4 % 2 ^ 32 := rfl
  refine ⟨?_, hbr, ?_, ?_, ?_⟩
  · unfold CGImpl.present
    rw [hb]
  · rw [hbr]
    omega
  · intro hgt
    rw [hbr]
    omega
  · simp [CGImpl.buffer_mut, okLength, Except.toOption, vecResize_length]

/-- Witness for C10 at width `2 ^ 31`, where the stride wraps to `0`. -/
theorem C10_stride_u32_witness :
    (wideState.buffer = some []) ∧ (wideState.width < 2 ^ 32) ∧
      (((wideState.present 2).1.layer.contents =
          some (presentImage wideState [])) ∧
        (presentImage wideState []).bytesPerRow =
          wideState.width * 4 % 2 ^ 32 ∧
        ((presentImage wideState []).bytesPerRow = 4 * wideState.width →
          wideState.width ≤ 2 ^ 30) ∧
        (2 ^ 30 < wideState.width →
          (presentImage wideState []).bytesPerRow ≠ 4 * wideState.width ∧
          (presentImage wideState []).bytesPerRow =
            4 * wideState.width % 2 ^ 32) ∧
        okLength (wideState.buffer_mut).2 =
          some (wideState.width * wideState.height)) :=
  ⟨by decide, by decide,
    C10_stride_u32 wideState 2 [] (by decide) (by decide)⟩

end Softbuffer
